import Mathlib

/-!
Verification of the kinetic-schemes repository (Blasi 1993 and Liden 1988
biomass pyrolysis schemes).  Concentrations, rate constants, temperatures
and time steps are modelled as real numbers; the per-step update laws are
transcribed from the Python step functions, with the Arrhenius rate
constants factored out as explicit parameters of each update law (the
Python functions evaluate the constants and then apply the law; the
wrapper definitions below compose the two exactly as the source does).
A Python call whose selector `s` falls outside the handled branches would
raise at the return statement, so the wrappers return an `Option`, with
`none` for the unhandled selectors.
-/

/-- Arrhenius rate-constant evaluation, the expression
`A * np.exp(-E / (R * T))` used for every rate constant in
`src/blasi_1993.py`, `src/liden_1988.py` and `src/kn_liden_1988.py`. -/
noncomputable def evaluate (A E R T : ℝ) : ℝ := A * Real.exp (-E / (R * T))

/-- Sum of a four-species concentration tuple. -/
def sum4 (p : ℝ × ℝ × ℝ × ℝ) : ℝ := p.1 + p.2.1 + p.2.2.1 + p.2.2.2

namespace Blasi1993

/-- Pre-exponential factor, wood to gas (src/blasi_1993.py line 48). -/
noncomputable def A1 : ℝ := 1.4345e4

/-- Activation energy, wood to gas (src/blasi_1993.py line 48). -/
noncomputable def E1 : ℝ := 88.6

/-- Pre-exponential factor, wood to tar (src/blasi_1993.py line 49). -/
noncomputable def A2 : ℝ := 4.125e6

/-- Activation energy, wood to tar (src/blasi_1993.py line 49). -/
noncomputable def E2 : ℝ := 112.7

/-- Pre-exponential factor, wood to char (src/blasi_1993.py line 50). -/
noncomputable def A3 : ℝ := 7.3766e5

/-- Activation energy, wood to char (src/blasi_1993.py line 50). -/
noncomputable def E3 : ℝ := 106.5

/-- Pre-exponential factor, tar to gas (src/blasi_1993.py line 51). -/
noncomputable def A4 : ℝ := 4.28e6

/-- Activation energy, tar to gas (src/blasi_1993.py line 51). -/
noncomputable def E4 : ℝ := 108

/-- Pre-exponential factor, tar to char (src/blasi_1993.py line 52). -/
noncomputable def A5 : ℝ := 1.0e6

/-- Activation energy, tar to char (src/blasi_1993.py line 52). -/
noncomputable def E5 : ℝ := 108

/-- Universal gas constant, kJ/(mol K) (src/blasi_1993.py line 53). -/
noncomputable def R : ℝ := 0.008314

/-- Rate constant K1 = A1 * exp(-E1/(R*T)), wood to gas. -/
noncomputable def K1 (T : ℝ) : ℝ := evaluate A1 E1 R T

/-- Rate constant K2 = A2 * exp(-E2/(R*T)), wood to tar. -/
noncomputable def K2 (T : ℝ) : ℝ := evaluate A2 E2 R T

/-- Rate constant K3 = A3 * exp(-E3/(R*T)), wood to char. -/
noncomputable def K3 (T : ℝ) : ℝ := evaluate A3 E3 R T

/-- Rate constant K4 = A4 * exp(-E4/(R*T)), tar to gas. -/
noncomputable def K4 (T : ℝ) : ℝ := evaluate A4 E4 R T

/-- Rate constant K5 = A5 * exp(-E5/(R*T)), tar to char. -/
noncomputable def K5 (T : ℝ) : ℝ := evaluate A5 E5 R T

/-- Primary-only update of the `blasi` function (branch `s == 1`,
src/blasi_1993.py lines 64-73), with the rate constants as parameters. -/
def blasiLaw1 (K1 K2 K3 wood gas tar char dt : ℝ) : ℝ × ℝ × ℝ × ℝ :=
  (wood + (-(K1 + K2 + K3) * wood) * dt,
   gas + (K1 * wood) * dt,
   tar + (K2 * wood) * dt,
   char + (K3 * wood) * dt)

/-- Primary-and-secondary update of the `blasi` function (branch `s == 2`,
src/blasi_1993.py lines 74-83), with the rate constants as parameters. -/
def blasiLaw2 (K1 K2 K3 K4 K5 wood gas tar char dt : ℝ) : ℝ × ℝ × ℝ × ℝ :=
  (wood + (-(K1 + K2 + K3) * wood) * dt,
   gas + (K1 * wood + K4 * tar) * dt,
   tar + (K2 * wood - (K4 + K5) * tar) * dt,
   char + (K3 * wood + K5 * tar) * dt)

/-- The `blasi` step function of src/blasi_1993.py: evaluates the five
rate constants at `T` and applies the branch selected by `s`; for any
other `s` the Python code reaches `return` with unbound locals and
raises, modelled as `none`. -/
noncomputable def blasi (wood gas tar char T dt : ℝ) (s : ℤ) :
    Option (ℝ × ℝ × ℝ × ℝ) :=
  if s = 1 then
    some (blasiLaw1 (K1 T) (K2 T) (K3 T) wood gas tar char dt)
  else if s = 2 then
    some (blasiLaw2 (K1 T) (K2 T) (K3 T) (K4 T) (K5 T) wood gas tar char dt)
  else
    none

/-- The primary-reactions simulation loop of src/blasi_1993.py
(lines 106-107): start from (wood, gas, tar, char) = (1, 0, 0, 0) and
iterate the `s = 1` step. -/
noncomputable def blasiRun1 (T dt : ℝ) : ℕ → ℝ × ℝ × ℝ × ℝ
  | 0 => (1, 0, 0, 0)
  | n + 1 =>
      let p := blasiRun1 T dt n
      blasiLaw1 (K1 T) (K2 T) (K3 T) p.1 p.2.1 p.2.2.1 p.2.2.2 dt

/-- The primary-and-secondary simulation loop of src/blasi_1993.py
(lines 110-111): start from (1, 0, 0, 0) and iterate the `s = 2` step. -/
noncomputable def blasiRun2 (T dt : ℝ) : ℕ → ℝ × ℝ × ℝ × ℝ
  | 0 => (1, 0, 0, 0)
  | n + 1 =>
      let p := blasiRun2 T dt n
      blasiLaw2 (K1 T) (K2 T) (K3 T) (K4 T) (K5 T) p.1 p.2.1 p.2.2.1 p.2.2.2 dt

end Blasi1993

namespace Liden1988

/-- Pre-exponential factor, wood to tar and (gas+char)
(src/liden_1988.py line 52). -/
noncomputable def A : ℝ := 1.0e13

/-- Activation energy, wood to tar and (gas+char)
(src/liden_1988.py line 52). -/
noncomputable def E : ℝ := 183.3

/-- Pre-exponential factor, tar to gas (src/liden_1988.py line 53). -/
noncomputable def A2 : ℝ := 4.28e6

/-- Activation energy, tar to gas (src/liden_1988.py line 53). -/
noncomputable def E2 : ℝ := 107.5

/-- Universal gas constant, kJ/(mol K) (src/liden_1988.py line 54). -/
noncomputable def R : ℝ := 0.008314

/-- Maximum theoretical tar yield (src/liden_1988.py line 55). -/
noncomputable def phistar : ℝ := 0.703

/-- Overall rate constant K = A * exp(-E/(R*T)), wood to tar and
(gas+char) (src/liden_1988.py line 58). -/
noncomputable def K (T : ℝ) : ℝ := evaluate A E R T

/-- Derived rate constant K1 = K * phistar (src/liden_1988.py line 59). -/
noncomputable def K1 (T : ℝ) : ℝ := K T * phistar

/-- Rate constant K2 = A2 * exp(-E2/(R*T)), tar to gas
(src/liden_1988.py line 60). -/
noncomputable def K2 (T : ℝ) : ℝ := evaluate A2 E2 R T

/-- Derived rate constant K3 = K - K1 (src/liden_1988.py line 61). -/
noncomputable def K3 (T : ℝ) : ℝ := K T - K1 T

/-- Weight fraction of fixed carbon in wood (src/liden_1988.py
line 130). -/
noncomputable def FC : ℝ := 0.14

/-- Char fraction of the lumped (gas+char) product, c3 = FC/(1-phistar)
(src/liden_1988.py line 131). -/
noncomputable def c3 : ℝ := FC / (1 - phistar)

/-- Gas fraction of the lumped (gas+char) product, g3 = 1 - c3
(src/liden_1988.py line 132). -/
noncomputable def g3 : ℝ := 1 - c3

set_option linter.unusedVariables false in
/-- Primary-only update of the `liden` function (branch `s == 1`,
src/liden_1988.py lines 64-72), with the rate constants as parameters.
Note that the new gas1 value is the constant 0, not an update of the
input gas1. -/
def lidenLaw1 (K K1 K3 wood gas1 tar gaschar dt : ℝ) : ℝ × ℝ × ℝ × ℝ :=
  (wood + (-K * wood) * dt,
   0,
   tar + (K1 * wood) * dt,
   gaschar + (K3 * wood) * dt)

/-- Primary-and-secondary update of the `liden` function (branch
`s == 2`, src/liden_1988.py lines 73-82), with the rate constants as
parameters. -/
def lidenLaw2 (K K1 K2 K3 wood gas1 tar gaschar dt : ℝ) : ℝ × ℝ × ℝ × ℝ :=
  (wood + (-K * wood) * dt,
   gas1 + (K2 * tar) * dt,
   tar + (K1 * wood - K2 * tar) * dt,
   gaschar + (K3 * wood) * dt)

/-- The `liden` step function of src/liden_1988.py: evaluates the rate
constants at `T` and applies the branch selected by `s`; any other `s`
reaches `return` with unbound locals and raises, modelled as `none`. -/
noncomputable def liden (wood gas1 tar gaschar T dt : ℝ) (s : ℤ) :
    Option (ℝ × ℝ × ℝ × ℝ) :=
  if s = 1 then
    some (lidenLaw1 (K T) (K1 T) (K3 T) wood gas1 tar gaschar dt)
  else if s = 2 then
    some (lidenLaw2 (K T) (K1 T) (K2 T) (K3 T) wood gas1 tar gaschar dt)
  else
    none

set_option linter.unusedVariables false in
/-- Update of the `liden2` function (src/liden_1988.py lines 134-144),
with the rate constants as parameters: the four-lump secondary update
followed by the gas/char split of the updated lumps.  The new total gas
is ngas1 + g3*ngaschar and the new char is c3*ngaschar, computed from the
updated gas1 and gaschar; the input gas and char are not used. -/
noncomputable def liden2Law (K K1 K2 K3 wood gas1 tar gaschar gas char dt : ℝ) :
    ℝ × ℝ × ℝ × ℝ × ℝ × ℝ :=
  (wood + (-K * wood) * dt,
   gas1 + (K2 * tar) * dt,
   tar + (K1 * wood - K2 * tar) * dt,
   gaschar + (K3 * wood) * dt,
   (gas1 + (K2 * tar) * dt) + g3 * (gaschar + (K3 * wood) * dt),
   c3 * (gaschar + (K3 * wood) * dt))

/-- The `liden2` step function of src/liden_1988.py: evaluates the rate
constants at `T` and applies the six-lump update (no selector). -/
noncomputable def liden2 (wood gas1 tar gaschar gas char T dt : ℝ) :
    ℝ × ℝ × ℝ × ℝ × ℝ × ℝ :=
  liden2Law (K T) (K1 T) (K2 T) (K3 T) wood gas1 tar gaschar gas char dt

/-- The primary-reactions simulation loop of src/liden_1988.py
(row 0 of the arrays, line 162): start from (1, 0, 0, 0) and iterate the
`s = 1` step. -/
noncomputable def lidenRun1 (T dt : ℝ) : ℕ → ℝ × ℝ × ℝ × ℝ
  | 0 => (1, 0, 0, 0)
  | n + 1 =>
      let p := lidenRun1 T dt n
      lidenLaw1 (K T) (K1 T) (K3 T) p.1 p.2.1 p.2.2.1 p.2.2.2 dt

/-- The primary-and-secondary simulation loop of src/liden_1988.py
(row 1 of the arrays, line 163): start from (1, 0, 0, 0) and iterate the
`s = 2` step. -/
noncomputable def lidenRun2 (T dt : ℝ) : ℕ → ℝ × ℝ × ℝ × ℝ
  | 0 => (1, 0, 0, 0)
  | n + 1 =>
      let p := lidenRun2 T dt n
      lidenLaw2 (K T) (K1 T) (K2 T) (K3 T) p.1 p.2.1 p.2.2.1 p.2.2.2 dt

end Liden1988

namespace KnLiden1988

/-- Pre-exponential factor, wood conversion (src/kn_liden_1988.py
line 46). -/
noncomputable def A : ℝ := 1.0e13

/-- Activation energy, wood conversion (src/kn_liden_1988.py line 46). -/
noncomputable def E : ℝ := 183.3

/-- Pre-exponential factor, tar to gas (src/kn_liden_1988.py line 47). -/
noncomputable def A2 : ℝ := 4.28e6

/-- Activation energy, tar to gas (src/kn_liden_1988.py line 47). -/
noncomputable def E2 : ℝ := 107.5

/-- Universal gas constant, kJ/(mol K) (src/kn_liden_1988.py line 48). -/
noncomputable def R : ℝ := 0.008314

/-- Overall rate constant K = A * exp(-E/(R*T))
(src/kn_liden_1988.py line 51). -/
noncomputable def K (T : ℝ) : ℝ := evaluate A E R T

/-- Rate constant K2 = A2 * exp(-E2/(R*T)), tar to gas
(src/kn_liden_1988.py line 52). -/
noncomputable def K2 (T : ℝ) : ℝ := evaluate A2 E2 R T

/-- The two-species update of the `liden` function of
src/kn_liden_1988.py (lines 55-66); both the `s == 1` and the `s == 2`
branch compute exactly these formulas.  The tar rate is -K2*wood, driven
by the wood concentration. -/
def lidenLaw (K K2 wood tar dt : ℝ) : ℝ × ℝ :=
  (wood + (-K * wood) * dt,
   tar + (-K2 * wood) * dt)

/-- The `liden` step function of src/kn_liden_1988.py: evaluates the
rate constants at `T` and applies the update for `s = 1` or `s = 2`
(both branches are textually identical); any other `s` reaches `return`
with unbound locals and raises, modelled as `none`. -/
noncomputable def liden (wood tar T dt : ℝ) (s : ℤ) : Option (ℝ × ℝ) :=
  if s = 1 then
    some (lidenLaw (K T) (K2 T) wood tar dt)
  else if s = 2 then
    some (lidenLaw (K T) (K2 T) wood tar dt)
  else
    none

end KnLiden1988

/-- Number of samples of the time vector
`t = np.linspace(0, tmax, num=tmax/dt)` (src/blasi_1993.py line 19,
src/liden_1988.py line 22, src/kn_liden_1988.py line 19): numpy converts
the float count tmax/dt to an integer by truncation. -/
def numPoints (tmax dt : ℚ) : ℕ := (⌊tmax / dt⌋).toNat

/-- The i-th sample of `np.linspace(start, stop, num)` with the default
inclusive endpoint: start + i * (stop - start) / (num - 1). -/
def linspace (start stop : ℚ) (num : ℕ) (i : ℕ) : ℚ :=
  start + (stop - start) * i / ((num : ℚ) - 1)


/-- C1: for the Blasi primary-plus-secondary scheme (`blasi` with `s = 2`),
one step with inputs (wood, gas, tar, char, T, dt) returns exactly
(wood + rw*dt, gas + rg*dt, tar + rt*dt, char + rc*dt) with
rw = -(K1+K2+K3)*wood, rg = K1*wood + K4*tar, rt = K2*wood - (K4+K5)*tar,
rc = K3*wood + K5*tar, all rates evaluated on the pre-update
concentrations. -/
theorem blasi_secondary_step (wood gas tar char T dt : ℝ) :
    Blasi1993.blasi wood gas tar char T dt 2 =
      some (wood + (-(Blasi1993.K1 T + Blasi1993.K2 T + Blasi1993.K3 T) * wood) * dt,
            gas + (Blasi1993.K1 T * wood + Blasi1993.K4 T * tar) * dt,
            tar + (Blasi1993.K2 T * wood - (Blasi1993.K4 T + Blasi1993.K5 T) * tar) * dt,
            char + (Blasi1993.K3 T * wood + Blasi1993.K5 T * tar) * dt) := by
  simp [Blasi1993.blasi, Blasi1993.blasiLaw2]

/-- C2: every Arrhenius rate constant k = A * exp(-E/(R*T)) with A > 0,
E > 0, T > 0 and R = 0.008314 satisfies 0 < k < A. -/
theorem evaluate_pos_lt (A E T : ℝ) (hA : 0 < A) (hE : 0 < E) (hT : 0 < T) :
    0 < evaluate A E 0.008314 T ∧ evaluate A E 0.008314 T < A := by
  have hRT : 0 < (0.008314 : ℝ) * T := by positivity
  have harg : -E / (0.008314 * T) < 0 := by
    apply div_neg_of_neg_of_pos _ hRT
    linarith
  have hexp : Real.exp (-E / (0.008314 * T)) < 1 := by
    calc Real.exp (-E / (0.008314 * T)) < Real.exp 0 := Real.exp_lt_exp.mpr harg
    _ = 1 := Real.exp_zero
  constructor
  · exact mul_pos hA (Real.exp_pos _)
  · calc evaluate A E 0.008314 T = A * Real.exp (-E / (0.008314 * T)) := rfl
    _ < A * 1 := by exact mul_lt_mul_of_pos_left hexp hA
    _ = A := mul_one A

/-- Witness for C2 at A = 2, E = 1, T = 1. -/
theorem evaluate_pos_lt_witness :
    0 < evaluate 2 1 0.008314 1 ∧ evaluate 2 1 0.008314 1 < 2 :=
  evaluate_pos_lt 2 1 1 (by norm_num) (by norm_num) (by norm_num)


/-- The derived Liden constants satisfy K1 + K3 = K by construction. -/
lemma lidenK_split (T : ℝ) : Liden1988.K1 T + Liden1988.K3 T = Liden1988.K T := by
  simp [Liden1988.K1, Liden1988.K3]

/-- One Blasi primary step conserves the total of the four species. -/
lemma blasiLaw1_sum (k1 k2 k3 w g t c dt : ℝ) :
    sum4 (Blasi1993.blasiLaw1 k1 k2 k3 w g t c dt) = w + g + t + c := by
  simp only [sum4, Blasi1993.blasiLaw1]
  ring

/-- One Blasi primary-and-secondary step conserves the total of the four
species. -/
lemma blasiLaw2_sum (k1 k2 k3 k4 k5 w g t c dt : ℝ) :
    sum4 (Blasi1993.blasiLaw2 k1 k2 k3 k4 k5 w g t c dt) = w + g + t + c := by
  simp only [sum4, Blasi1993.blasiLaw2]
  ring

/-- One Liden primary step returns total w + t + gc: the input gas1 is
dropped (replaced by 0), everything else is conserved since K1 + K3 = K. -/
lemma lidenLaw1_sum (T w g1 t gc dt : ℝ) :
    sum4 (Liden1988.lidenLaw1 (Liden1988.K T) (Liden1988.K1 T) (Liden1988.K3 T)
      w g1 t gc dt) = w + t + gc := by
  have h := lidenK_split T
  simp only [sum4, Liden1988.lidenLaw1]
  linear_combination (w * dt) * h

/-- One Liden primary-and-secondary step conserves the total of the four
species, since K1 + K3 = K. -/
lemma lidenLaw2_sum (T w g1 t gc dt : ℝ) :
    sum4 (Liden1988.lidenLaw2 (Liden1988.K T) (Liden1988.K1 T) (Liden1988.K2 T)
      (Liden1988.K3 T) w g1 t gc dt) = w + g1 + t + gc := by
  have h := lidenK_split T
  simp only [sum4, Liden1988.lidenLaw2]
  linear_combination (w * dt) * h

/-- Along the Blasi primary run the total mass stays exactly 1. -/
lemma blasiRun1_sum (T dt : ℝ) : ∀ n, sum4 (Blasi1993.blasiRun1 T dt n) = 1
  | 0 => by norm_num [Blasi1993.blasiRun1, sum4]
  | n + 1 => by
      have ih := blasiRun1_sum T dt n
      rw [Blasi1993.blasiRun1]
      show sum4 (Blasi1993.blasiLaw1 _ _ _ _ _ _ _ _) = 1
      rw [blasiLaw1_sum]
      simpa [sum4] using ih

/-- Along the Blasi primary-and-secondary run the total mass stays
exactly 1. -/
lemma blasiRun2_sum (T dt : ℝ) : ∀ n, sum4 (Blasi1993.blasiRun2 T dt n) = 1
  | 0 => by norm_num [Blasi1993.blasiRun2, sum4]
  | n + 1 => by
      have ih := blasiRun2_sum T dt n
      rw [Blasi1993.blasiRun2]
      show sum4 (Blasi1993.blasiLaw2 _ _ _ _ _ _ _ _ _ _) = 1
      rw [blasiLaw2_sum]
      simpa [sum4] using ih

/-- Along the Liden primary run the gas1 component stays 0. -/
lemma lidenRun1_gas1 (T dt : ℝ) : ∀ n, (Liden1988.lidenRun1 T dt n).2.1 = 0
  | 0 => rfl
  | n + 1 => by
      rw [Liden1988.lidenRun1]
      rfl

/-- Along the Liden primary run the total mass stays exactly 1 (the
dropped gas1 component is always 0 there). -/
lemma lidenRun1_sum (T dt : ℝ) : ∀ n, sum4 (Liden1988.lidenRun1 T dt n) = 1
  | 0 => by norm_num [Liden1988.lidenRun1, sum4]
  | n + 1 => by
      have ih := lidenRun1_sum T dt n
      have hg := lidenRun1_gas1 T dt n
      rw [Liden1988.lidenRun1]
      show sum4 (Liden1988.lidenLaw1 _ _ _ _ _ _ _ _) = 1
      rw [lidenLaw1_sum]
      simp only [sum4] at ih
      linarith [ih, hg]

/-- Along the Liden primary-and-secondary run the total mass stays
exactly 1. -/
lemma lidenRun2_sum (T dt : ℝ) : ∀ n, sum4 (Liden1988.lidenRun2 T dt n) = 1
  | 0 => by norm_num [Liden1988.lidenRun2, sum4]
  | n + 1 => by
      have ih := lidenRun2_sum T dt n
      rw [Liden1988.lidenRun2]
      show sum4 (Liden1988.lidenLaw2 _ _ _ _ _ _ _ _ _) = 1
      rw [lidenLaw2_sum]
      simpa [sum4] using ih

/-- An Arrhenius constant with positive pre-factor is positive at any
temperature. -/
lemma evaluate_pos (A E R T : ℝ) (hA : 0 < A) : 0 < evaluate A E R T :=
  mul_pos hA (Real.exp_pos _)

/-- C3 counterexample: one Liden primary step (`s = 1`) does not conserve
the total of the four species for every input state.  With input
(wood, gas1, tar, gaschar) = (0, 1, 0, 0) the returned total is 0 while
the input total is 1: the step overwrites gas1 with 0. -/
theorem mass_conservation_cex :
    Option.map sum4 (Liden1988.liden 0 1 0 0 773 (1/100) 1) = some 0 ∧
      sum4 (0, 1, 0, 0) = 1 ∧ (0 : ℝ) ≠ 1 := by
  refine ⟨?_, by norm_num [sum4], by norm_num⟩
  simp [Liden1988.liden, Liden1988.lidenLaw1, sum4]

/-- C3 amended: the Blasi steps (s = 1 and s = 2) and the Liden
primary-and-secondary step (s = 2) conserve the total of the four species
for every input state, every T and every dt; the Liden primary step
(s = 1) conserves it whenever the input gas1 is 0 (it overwrites gas1
with 0).  Consequently every run started from (1, 0, 0, 0) keeps total
mass exactly 1 at every step, for every T and dt. -/
theorem mass_conservation_amended :
    (∀ w g t c T dt : ℝ,
      sum4 (Blasi1993.blasiLaw1 (Blasi1993.K1 T) (Blasi1993.K2 T)
        (Blasi1993.K3 T) w g t c dt) = w + g + t + c) ∧
    (∀ w g t c T dt : ℝ,
      sum4 (Blasi1993.blasiLaw2 (Blasi1993.K1 T) (Blasi1993.K2 T)
        (Blasi1993.K3 T) (Blasi1993.K4 T) (Blasi1993.K5 T) w g t c dt) =
        w + g + t + c) ∧
    (∀ w g1 t gc T dt : ℝ,
      sum4 (Liden1988.lidenLaw2 (Liden1988.K T) (Liden1988.K1 T)
        (Liden1988.K2 T) (Liden1988.K3 T) w g1 t gc dt) = w + g1 + t + gc) ∧
    (∀ w g1 t gc T dt : ℝ, g1 = 0 →
      sum4 (Liden1988.lidenLaw1 (Liden1988.K T) (Liden1988.K1 T)
        (Liden1988.K3 T) w g1 t gc dt) = w + g1 + t + gc) ∧
    (∀ T dt : ℝ, ∀ n : ℕ,
      sum4 (Blasi1993.blasiRun1 T dt n) = 1 ∧
      sum4 (Blasi1993.blasiRun2 T dt n) = 1 ∧
      sum4 (Liden1988.lidenRun1 T dt n) = 1 ∧
      sum4 (Liden1988.lidenRun2 T dt n) = 1) := by
  refine ⟨?_, ?_, ?_, ?_, ?_⟩
  · intro w g t c T dt; exact blasiLaw1_sum _ _ _ w g t c dt
  · intro w g t c T dt; exact blasiLaw2_sum _ _ _ _ _ w g t c dt
  · intro w g1 t gc T dt; exact lidenLaw2_sum T w g1 t gc dt
  · intro w g1 t gc T dt hg1
    rw [lidenLaw1_sum T w g1 t gc dt, hg1]
    ring
  · intro T dt n
    exact ⟨blasiRun1_sum T dt n, blasiRun2_sum T dt n,
           lidenRun1_sum T dt n, lidenRun2_sum T dt n⟩

/-- Witness for C3 amended: the Liden primary step at
(wood, gas1, tar, gaschar) = (1, 0, 0, 0), T = 773, dt = 1/100 conserves
the total. -/
theorem mass_conservation_amended_witness :
    sum4 (Liden1988.lidenLaw1 (Liden1988.K 773) (Liden1988.K1 773)
      (Liden1988.K3 773) 1 0 0 0 (1/100)) = 1 + 0 + 0 + 0 :=
  mass_conservation_amended.2.2.2.1 1 0 0 0 773 (1/100) rfl

set_option linter.unusedVariables false in
/-- C4: the derived Liden rate constants satisfy K1 = K * 0.703 and
K3 = K - K1, hence K1 + K3 = K and K1 / K = 0.703 exactly, for every
T > 0 (positivity of T is not even needed: the exponential is positive
at every temperature). -/
theorem liden_K1_K3_split (T : ℝ) (hT : 0 < T) :
    Liden1988.K1 T + Liden1988.K3 T = Liden1988.K T ∧
      Liden1988.K1 T / Liden1988.K T = 0.703 := by
  refine ⟨lidenK_split T, ?_⟩
  have hK : 0 < Liden1988.K T :=
    evaluate_pos _ _ _ _ (by norm_num [Liden1988.A])
  rw [Liden1988.K1, mul_comm, mul_div_assoc, div_self (ne_of_gt hK), mul_one]
  rfl

/-- Witness for C4 at T = 773. -/
theorem liden_K1_K3_split_witness :
    Liden1988.K1 773 + Liden1988.K3 773 = Liden1988.K 773 ∧
      Liden1988.K1 773 / Liden1988.K 773 = 0.703 :=
  liden_K1_K3_split 773 (by norm_num)

/-- C5: in the six-lump step `liden2`, the returned gas and char are
gas = ngas1 + g3 * ngaschar and char = c3 * ngaschar, computed from the
updated gas1 and gaschar, with c3 = 0.14/(1 - 0.703) and g3 = 1 - c3;
hence c3 + g3 = 1 and gas + char = ngas1 + ngaschar for every input. -/
theorem liden2_gas_char_split (wood gas1 tar gaschar gas char T dt : ℝ) :
    Liden1988.c3 = 0.14 / (1 - 0.703) ∧
    Liden1988.g3 = 1 - Liden1988.c3 ∧
    Liden1988.c3 + Liden1988.g3 = 1 ∧
    (Liden1988.liden2 wood gas1 tar gaschar gas char T dt).2.2.2.2.1 =
      (Liden1988.liden2 wood gas1 tar gaschar gas char T dt).2.1 +
        Liden1988.g3 *
          (Liden1988.liden2 wood gas1 tar gaschar gas char T dt).2.2.2.1 ∧
    (Liden1988.liden2 wood gas1 tar gaschar gas char T dt).2.2.2.2.2 =
      Liden1988.c3 *
        (Liden1988.liden2 wood gas1 tar gaschar gas char T dt).2.2.2.1 ∧
    (Liden1988.liden2 wood gas1 tar gaschar gas char T dt).2.2.2.2.1 +
        (Liden1988.liden2 wood gas1 tar gaschar gas char T dt).2.2.2.2.2 =
      (Liden1988.liden2 wood gas1 tar gaschar gas char T dt).2.1 +
        (Liden1988.liden2 wood gas1 tar gaschar gas char T dt).2.2.2.1 := by
  refine ⟨rfl, rfl, ?_, rfl, rfl, ?_⟩
  · rw [Liden1988.g3]; ring
  · simp only [Liden1988.liden2, Liden1988.liden2Law, Liden1988.g3]
    ring

/-- At T = 1000000 K the Blasi wood-to-gas rate constant exceeds 2:
the Arrhenius exponent is larger than -1, so the exponential exceeds
1 - 88.6/8314, and the pre-factor is 14345. -/
lemma blasiK1_big : (2 : ℝ) < Blasi1993.K1 1000000 := by
  simp only [Blasi1993.K1, evaluate, Blasi1993.A1, Blasi1993.E1, Blasi1993.R]
  have h := Real.add_one_le_exp (-(88.6 : ℝ) / (0.008314 * 1000000))
  nlinarith [h]

/-- One explicit-Euler wood update with nonnegative rate constant,
nonnegative wood and nonnegative dt does not increase wood. -/
lemma wood_step_le (k w dt : ℝ) (hk : 0 ≤ k) (hw : 0 ≤ w) (hdt : 0 ≤ dt) :
    w + -k * w * dt ≤ w := by
  nlinarith [mul_nonneg (mul_nonneg hk hw) hdt]

/-- C6 counterexample: wood is not non-increasing over every run.  In the
Blasi primary run with T = 1000000 K and dt = 1 s, the first step drives
wood below zero (the Euler step overshoots) and the second step then
increases it. -/
theorem wood_monotone_cex :
    (Blasi1993.blasiRun1 1000000 1 1).1 < (Blasi1993.blasiRun1 1000000 1 2).1 := by
  have h1 : (2 : ℝ) < Blasi1993.K1 1000000 := blasiK1_big
  have h2 : (0 : ℝ) < Blasi1993.K2 1000000 :=
    evaluate_pos _ _ _ _ (by norm_num [Blasi1993.A2])
  have h3 : (0 : ℝ) < Blasi1993.K3 1000000 :=
    evaluate_pos _ _ _ _ (by norm_num [Blasi1993.A3])
  have e1 : Blasi1993.blasiRun1 1000000 1 1 =
      Blasi1993.blasiLaw1 (Blasi1993.K1 1000000) (Blasi1993.K2 1000000)
        (Blasi1993.K3 1000000) 1 0 0 0 1 := rfl
  have e2 : Blasi1993.blasiRun1 1000000 1 2 =
      Blasi1993.blasiLaw1 (Blasi1993.K1 1000000) (Blasi1993.K2 1000000)
        (Blasi1993.K3 1000000)
        (Blasi1993.blasiRun1 1000000 1 1).1 (Blasi1993.blasiRun1 1000000 1 1).2.1
        (Blasi1993.blasiRun1 1000000 1 1).2.2.1
        (Blasi1993.blasiRun1 1000000 1 1).2.2.2 1 := rfl
  rw [e2, e1]
  simp only [Blasi1993.blasiLaw1]
  nlinarith [mul_pos (show (0 : ℝ) < Blasi1993.K1 1000000 + Blasi1993.K2 1000000 +
      Blasi1993.K3 1000000 by linarith)
    (show (0 : ℝ) < Blasi1993.K1 1000000 + Blasi1993.K2 1000000 +
      Blasi1993.K3 1000000 - 1 by linarith)]

/-- C6 amended: for every variant, one step does not increase wood
provided the input wood and the time step are nonnegative (in a run wood
can undershoot below zero when dt is too large, and then increase). -/
theorem wood_monotone_amended :
    (∀ w g t c T dt : ℝ, 0 ≤ w → 0 ≤ dt →
      (Blasi1993.blasiLaw1 (Blasi1993.K1 T) (Blasi1993.K2 T)
        (Blasi1993.K3 T) w g t c dt).1 ≤ w) ∧
    (∀ w g t c T dt : ℝ, 0 ≤ w → 0 ≤ dt →
      (Blasi1993.blasiLaw2 (Blasi1993.K1 T) (Blasi1993.K2 T) (Blasi1993.K3 T)
        (Blasi1993.K4 T) (Blasi1993.K5 T) w g t c dt).1 ≤ w) ∧
    (∀ w t T dt : ℝ, 0 ≤ w → 0 ≤ dt →
      (KnLiden1988.lidenLaw (KnLiden1988.K T) (KnLiden1988.K2 T) w t dt).1 ≤ w) ∧
    (∀ w g1 t gc T dt : ℝ, 0 ≤ w → 0 ≤ dt →
      (Liden1988.lidenLaw1 (Liden1988.K T) (Liden1988.K1 T)
        (Liden1988.K3 T) w g1 t gc dt).1 ≤ w) ∧
    (∀ w g1 t gc T dt : ℝ, 0 ≤ w → 0 ≤ dt →
      (Liden1988.lidenLaw2 (Liden1988.K T) (Liden1988.K1 T) (Liden1988.K2 T)
        (Liden1988.K3 T) w g1 t gc dt).1 ≤ w) ∧
    (∀ w g1 t gc gas char T dt : ℝ, 0 ≤ w → 0 ≤ dt →
      (Liden1988.liden2 w g1 t gc gas char T dt).1 ≤ w) := by
  have hB1 : ∀ T : ℝ, (0 : ℝ) < Blasi1993.K1 T := fun T =>
    evaluate_pos _ _ _ _ (by norm_num [Blasi1993.A1])
  have hB2 : ∀ T : ℝ, (0 : ℝ) < Blasi1993.K2 T := fun T =>
    evaluate_pos _ _ _ _ (by norm_num [Blasi1993.A2])
  have hB3 : ∀ T : ℝ, (0 : ℝ) < Blasi1993.K3 T := fun T =>
    evaluate_pos _ _ _ _ (by norm_num [Blasi1993.A3])
  have hL : ∀ T : ℝ, (0 : ℝ) < Liden1988.K T := fun T =>
    evaluate_pos _ _ _ _ (by norm_num [Liden1988.A])
  have hKn : ∀ T : ℝ, (0 : ℝ) < KnLiden1988.K T := fun T =>
    evaluate_pos _ _ _ _ (by norm_num [KnLiden1988.A])
  refine ⟨?_, ?_, ?_, ?_, ?_, ?_⟩
  · intro w g t c T dt hw hdt
    simp only [Blasi1993.blasiLaw1]
    exact wood_step_le _ w dt (by linarith [hB1 T, hB2 T, hB3 T]) hw hdt
  · intro w g t c T dt hw hdt
    simp only [Blasi1993.blasiLaw2]
    exact wood_step_le _ w dt (by linarith [hB1 T, hB2 T, hB3 T]) hw hdt
  · intro w t T dt hw hdt
    simp only [KnLiden1988.lidenLaw]
    exact wood_step_le _ w dt (le_of_lt (hKn T)) hw hdt
  · intro w g1 t gc T dt hw hdt
    simp only [Liden1988.lidenLaw1]
    exact wood_step_le _ w dt (le_of_lt (hL T)) hw hdt
  · intro w g1 t gc T dt hw hdt
    simp only [Liden1988.lidenLaw2]
    exact wood_step_le _ w dt (le_of_lt (hL T)) hw hdt
  · intro w g1 t gc gas char T dt hw hdt
    simp only [Liden1988.liden2, Liden1988.liden2Law]
    exact wood_step_le _ w dt (le_of_lt (hL T)) hw hdt

/-- Witness for C6 amended: one Blasi primary step from
(wood, gas, tar, char) = (1, 0, 0, 0) with T = 773 and dt = 1/100 does
not increase wood. -/
theorem wood_monotone_amended_witness :
    (Blasi1993.blasiLaw1 (Blasi1993.K1 773) (Blasi1993.K2 773)
      (Blasi1993.K3 773) 1 0 0 0 (1/100)).1 ≤ 1 :=
  wood_monotone_amended.1 1 0 0 0 773 (1/100) (by norm_num) (by norm_num)

/-- C7 counterexample: with all rate constants forced to 0 the Liden
primary step (`s = 1`) does not leave every input state unchanged: with
gas1 = 1 it returns gas1 = 0. -/
theorem zero_rate_cex :
    Liden1988.lidenLaw1 0 0 0 5 1 2 3 (1/100) ≠ (5, 1, 2, 3) := by
  simp [Liden1988.lidenLaw1]

/-- C7 amended: with all rate constants forced to 0, one step of every
variant returns the state unchanged, except that the Liden primary step
(`s = 1`) overwrites gas1 with 0 (unchanged only when gas1 = 0, as at the
initial state) and the six-lump step recomputes gas and char from gas1
and gaschar (unchanged only when gas = gas1 + g3*gaschar and
char = c3*gaschar, as at the initial state). -/
theorem zero_rate_amended :
    (∀ w g t c dt : ℝ, Blasi1993.blasiLaw1 0 0 0 w g t c dt = (w, g, t, c)) ∧
    (∀ w g t c dt : ℝ,
      Blasi1993.blasiLaw2 0 0 0 0 0 w g t c dt = (w, g, t, c)) ∧
    (∀ w t dt : ℝ, KnLiden1988.lidenLaw 0 0 w t dt = (w, t)) ∧
    (∀ w g1 t gc dt : ℝ,
      Liden1988.lidenLaw2 0 0 0 0 w g1 t gc dt = (w, g1, t, gc)) ∧
    (∀ w g1 t gc dt : ℝ, g1 = 0 →
      Liden1988.lidenLaw1 0 0 0 w g1 t gc dt = (w, g1, t, gc)) ∧
    (∀ w g1 t gc gas char dt : ℝ,
      gas = g1 + Liden1988.g3 * gc → char = Liden1988.c3 * gc →
      Liden1988.liden2Law 0 0 0 0 w g1 t gc gas char dt =
        (w, g1, t, gc, gas, char)) := by
  refine ⟨?_, ?_, ?_, ?_, ?_, ?_⟩
  · intro w g t c dt; simp [Blasi1993.blasiLaw1]
  · intro w g t c dt; simp [Blasi1993.blasiLaw2]
  · intro w t dt; simp [KnLiden1988.lidenLaw]
  · intro w g1 t gc dt; simp [Liden1988.lidenLaw2]
  · intro w g1 t gc dt hg1; subst hg1; simp [Liden1988.lidenLaw1]
  · intro w g1 t gc gas char dt hgas hchar
    subst hgas; subst hchar
    simp [Liden1988.liden2Law]

/-- Witness for C7 amended: the zero-rate Liden primary step leaves
(1, 0, 0, 0) unchanged. -/
theorem zero_rate_amended_witness :
    Liden1988.lidenLaw1 0 0 0 1 0 0 0 (1/100) = (1, 0, 0, 0) :=
  zero_rate_amended.2.2.2.2.1 1 0 0 0 (1/100) rfl

/-- C8: in the Liden overall two-species scheme, both selector branches
return wood - K*wood*dt and tar - K2*wood*dt: the tar rate is -K2*wood,
driven by the wood concentration, not by tar itself. -/
theorem kn_liden_step (wood tar T dt : ℝ) (s : ℤ) (hs : s = 1 ∨ s = 2) :
    KnLiden1988.liden wood tar T dt s =
      some (wood - KnLiden1988.K T * wood * dt,
            tar - KnLiden1988.K2 T * wood * dt) := by
  have hlaw : KnLiden1988.lidenLaw (KnLiden1988.K T) (KnLiden1988.K2 T) wood tar dt =
      (wood - KnLiden1988.K T * wood * dt, tar - KnLiden1988.K2 T * wood * dt) := by
    simp only [KnLiden1988.lidenLaw, Prod.mk.injEq]
    constructor <;> ring
  rcases hs with h | h <;> subst h <;> simp [KnLiden1988.liden, hlaw]

/-- Witness for C8 at (wood, tar) = (1, 0), T = 773, dt = 1/100, s = 1. -/
theorem kn_liden_step_witness :
    KnLiden1988.liden 1 0 773 (1/100) 1 =
      some (1 - KnLiden1988.K 773 * 1 * (1/100),
            0 - KnLiden1988.K2 773 * 1 * (1/100)) :=
  kn_liden_step 1 0 773 (1/100) 1 (Or.inl rfl)

/-- C9 counterexample: for tmax = 25 and dt = 1/100 the time vector does
have 2500 samples, but the sample at index 1 is 25/2499, not 1 * dt:
numpy linspace spaces 2500 samples over the closed interval [0, 25] with
spacing 25/2499. -/
theorem time_grid_cex :
    numPoints 25 (1/100) = 2500 ∧
      linspace 0 25 (numPoints 25 (1/100)) 1 ≠ 1 * (1/100 : ℚ) := by
  have hfl : ⌊(25 / (1/100) : ℚ)⌋ = 2500 := by norm_num
  have h : numPoints 25 (1/100) = 2500 := by
    rw [numPoints, hfl]
    rfl
  refine ⟨h, ?_⟩
  rw [h]
  norm_num [linspace]

/-- C9 amended: for tmax = 25 and dt = 1/100 the time vector has
2500 samples and the sample at index i is i * (25/2499), the linspace
spacing over [0, 25], which differs from i * dt for every i > 0. -/
theorem time_grid_amended :
    numPoints 25 (1/100) = 2500 ∧
      ∀ i : ℕ, linspace 0 25 (numPoints 25 (1/100)) i = i * (25 / 2499) := by
  have hfl : ⌊(25 / (1/100) : ℚ)⌋ = 2500 := by norm_num
  have h : numPoints 25 (1/100) = 2500 := by
    rw [numPoints, hfl]
    rfl
  refine ⟨h, ?_⟩
  intro i
  rw [h]
  simp only [linspace]
  push_cast
  ring

/-- C10: for every selector s different from 1 and 2, each step function
returns no result (the Python body binds no updated concentrations and
the return statement raises), modelled as `none`; for s equal to 1 or 2
the result is `some` of the updated state. -/
theorem selector_guard (s : ℤ) (h1 : s ≠ 1) (h2 : s ≠ 2) :
    (∀ w g t c T dt : ℝ, Blasi1993.blasi w g t c T dt s = none) ∧
    (∀ w g1 t gc T dt : ℝ, Liden1988.liden w g1 t gc T dt s = none) ∧
    (∀ w t T dt : ℝ, KnLiden1988.liden w t T dt s = none) := by
  refine ⟨?_, ?_, ?_⟩
  · intro w g t c T dt; simp [Blasi1993.blasi, h1, h2]
  · intro w g1 t gc T dt; simp [Liden1988.liden, h1, h2]
  · intro w t T dt; simp [KnLiden1988.liden, h1, h2]

/-- Witness for C10 at s = 3: every step function returns `none`. -/
theorem selector_guard_witness :
    Blasi1993.blasi 1 0 0 0 773 (1/100) 3 = none ∧
    Liden1988.liden 1 0 0 0 773 (1/100) 3 = none ∧
    KnLiden1988.liden 1 0 773 (1/100) 3 = none := by
  have h := selector_guard 3 (by decide) (by decide)
  exact ⟨h.1 1 0 0 0 773 (1/100), h.2.1 1 0 0 0 773 (1/100),
         h.2.2 1 0 773 (1/100)⟩
